import Mathlib

/-!
Shallow embedding of the request-dispatch pipeline of the Linux-DevOps-MCP
server (`mcp_server.py`) and of its idle watcher (`idle_watcher.py`).

External collaborators (the remote ollama chat service, the JSON parser of
`json.loads`, the shell executor `subprocess.run`) are modelled as oracles
passed explicitly: a chat call either returns the response text or raises
(carrying the exception's string), a parse either yields the typed projection
of the JSON object or fails, and a shell run either finishes with an exit
code and output or raises `TimeoutExpired`.  Process-global mutable state
(the classification cache, the error log file) is threaded explicitly as a
`ClassifyState`.
-/

deriving instance DecidableEq for Except

namespace MCP

/-- The classification JSON object returned by the classifier model,
projected onto the three fields the server reads with `dict.get`
(`nature`, `rewritten_request`, `confidence`); a key absent from the
object is `none`.  Confidence is modelled as a rational. -/
structure Classification where
  nature : Option String := none
  rewritten_request : Option String := none
  confidence : Option ℚ := none
deriving DecidableEq, Repr

/-- One entry of the `results` list built by `execute_plan`:
`{"command": cmd, "returncode": ..., "stdout": ..., "stderr": ...}`. -/
structure CommandResult where
  command : String
  returncode : Int
  stdout : String
  stderr : String
deriving DecidableEq, Repr

/-- The JSON value found under the `commands` key of a plan object: either a
JSON list of command strings, or some other JSON value (in Python,
`if not isinstance(commands, list): commands = []`). -/
inductive CommandsField
  | strList (cmds : List String)
  | nonList
deriving DecidableEq, Repr

/-- An execution plan JSON object, projected onto the keys `execute_plan`
reads with `dict.get`; a key absent from the object is `none`. -/
structure Plan where
  description : Option String := none
  commands : Option CommandsField := none
  output_file : Option String := none
deriving DecidableEq, Repr

/-- Outcome of one `subprocess.run(cmd, shell=True, capture_output=True,
text=True, timeout=90)` call: the process either finished (with any exit
code) or `subprocess.TimeoutExpired` was raised. -/
inductive RunOutcome
  | finished (returncode : Int) (stdout stderr : String)
  | timedOut
deriving DecidableEq, Repr

/-- Exceptions that can escape the dispatch pipeline: `RuntimeError(last)`
raised by `call_with_fallback` (payload `none` models Python `None`), and
`subprocess.TimeoutExpired` escaping `execute_plan`. -/
inductive Exc
  | runtimeError (last : Option String)
  | timeoutExpired (cmd : String)
deriving DecidableEq, Repr

/-- An arbitrary parsed JSON object produced for a report; the server only
wraps it as `{"mode": "REPORT", "report": res}` without inspecting it, so it
is kept abstract as a key-value list; the empty object `\x7b\x7d` is `⟨[]⟩`. -/
structure JsonObj where
  fields : List (String × String) := []
deriving DecidableEq, Repr

/-- The three DispatchOutcome shapes the server builds, tagged by their
`mode` field. -/
inductive Outcome
  | noExec (description : String)
  | execute (description : Option String) (results : List CommandResult)
      (saved_to : Option String)
  | report (res : JsonObj)
deriving DecidableEq, Repr

/-- CONFIDENCE_THRESHOLD = 0.6. -/
def CONFIDENCE_THRESHOLD : ℚ := mkRat 6 10

/-- MODEL_CHAINS["unknown"]. -/
def unknownChain : List String := ["ministral-3:14b", "glm-4.6"]

/-- MODEL_CHAINS.get(nature, MODEL_CHAINS["unknown"]): the fixed dictionary
lookup, with the unknown chain as default for unmapped categories. -/
def MODEL_CHAINS (nature : String) : List String :=
  if nature = "server_operation" then ["gpt-oss:120b", "qwen3-next:80b"]
  else if nature = "code_generation" then ["devstral-2:123b-cloud", "qwen3-coder:480b-cloud"]
  else if nature = "explanatory" then ["gemini-3-flash-preview:cloud", "mistral-large-3"]
  else unknownChain

/-- REPORT_KEYWORDS. -/
def REPORT_KEYWORDS : List String := ["report mode", "report_only", "--report", "[report]"]

/-- CONTEXT_TRIGGERS. -/
def CONTEXT_TRIGGERS : List String :=
  ["이 폴더", "현재 폴더", "파일 참고", "코드 참고", "스크립트 참고", "project", "context"]

/-- Characters removed by Python `str.strip()` / examined by `str.lower()`
are handled on the underlying character list (structural recursion, so that
concrete inputs evaluate).  Drop leading whitespace characters. -/
def dropLeadingWS : List Char → List Char
  | [] => []
  | c :: cs => if c.isWhitespace then dropLeadingWS cs else c :: cs

/-- Python `s.strip()`: remove leading and trailing whitespace. -/
def pyStrip (s : String) : String :=
  ⟨(dropLeadingWS (dropLeadingWS s.data.reverse).reverse)⟩

/-- Python `s.lower()`: lowercase every character. -/
def pyLower (s : String) : String :=
  ⟨s.data.map Char.toLower⟩

/-- Whether `needle` is a contiguous prefix of `hay` (character lists). -/
def listPrefixB : List Char → List Char → Bool
  | [], _ => true
  | _ :: _, [] => false
  | n :: ns, h :: hs => n == h && listPrefixB ns hs

/-- Whether `needle` occurs contiguously inside `hay` (character lists). -/
def listInfixB (needle : List Char) : List Char → Bool
  | [] => needle.isEmpty
  | h :: hs => listPrefixB needle (h :: hs) || listInfixB needle hs

/-- Python `needle in hay` on strings: substring containment. -/
def substrB (needle hay : String) : Bool :=
  listInfixB needle.data hay.data

/-- is_report_mode(user_input): whether the lowercased input contains any
report keyword. -/
def is_report_mode (user_input : String) : Bool :=
  REPORT_KEYWORDS.any fun k => substrB k (pyLower user_input)

/-- should_attach_context(user_input): whether the lowercased input contains
any (lowercased) context trigger phrase. -/
def should_attach_context (user_input : String) : Bool :=
  CONTEXT_TRIGGERS.any fun k => substrB (pyLower k) (pyLower user_input)

/-- safe_load_json(text, default): strip markdown fences and `json.loads`.
The fence-stripping regex followed by `json.loads` is the oracle `parse`
(returning `none` exactly when Python would raise); on parse failure the
default is returned and no exception escapes. -/
def safe_load_json {α : Type} (parse : String → Option α) (text : String) (dflt : α) : α :=
  (parse text).getD dflt

/-- plan.get("commands", []) followed by the non-list guard of
`execute_plan`: a missing key or a non-list value becomes `[]`. -/
def planCommands (plan : Plan) : List String :=
  match plan.commands with
  | some (.strList cmds) => cmds
  | some .nonList => []
  | none => []

/-- The sequential command loop of `execute_plan`: run each command with
`subprocess.run(..., timeout=90)`, appending a `CommandResult` with trimmed
stdout/stderr.  A `TimeoutExpired` is not caught and aborts the loop.
Returns the result (or escaping exception) together with the list of
commands actually dispatched to the shell, in dispatch order. -/
def runCommands (run : String → RunOutcome) :
    List String → List CommandResult → Except Exc (List CommandResult) × List String
  | [], acc => (.ok acc, [])
  | c :: cs, acc =>
    match run c with
    | .finished rc out err =>
      let res := runCommands run cs
        (acc ++ [{ command := c, returncode := rc, stdout := pyStrip out, stderr := pyStrip err }])
      (res.1, c :: res.2)
    | .timedOut => (.error (.timeoutExpired c), [c])

/-- execute_plan(plan): empty command list yields the NO_EXEC outcome with
the defaulted description; otherwise every command is run sequentially and
an EXECUTE outcome is assembled.  Also returns the list of commands
dispatched to the shell. -/
def execute_plan (run : String → RunOutcome) (plan : Plan) :
    Except Exc Outcome × List String :=
  let commands := planCommands plan
  if commands.isEmpty then
    (.ok (.noExec (plan.description.getD "No commands to execute")), [])
  else
    match runCommands run commands [] with
    | (.ok results, tr) => (.ok (.execute plan.description results plan.output_file), tr)
    | (.error e, tr) => (.error e, tr)

/-- The classifier's fallback dictionary
`{"nature": "unknown", "rewritten_request": user_input, "confidence": 0.0}`,
used both as the `safe_load_json` default and as the value returned when the
remote call raises. -/
def classifierFallback (user_input : String) : Classification :=
  { nature := some "unknown", rewritten_request := some user_input, confidence := some 0 }

/-- The process-global mutable state touched by `classify_request`: the
CLASSIFY_CACHE dictionary (an association list keyed by
`(user_input, bool(file_ctx))`) and the `error.log` side-channel written by
`log_error` (a list of recorded error details). -/
structure ClassifyState where
  cache : List ((String × Bool) × Classification) := []
  log : List String := []
deriving DecidableEq, Repr

/-- Dictionary membership/lookup on the cache association list. -/
def cacheLookup (c : List ((String × Bool) × Classification)) (k : String × Bool) :
    Option Classification :=
  match c with
  | [] => none
  | (k1, v) :: rest => if k1 = k then some v else cacheLookup rest k

/-- classify_request(user_input, file_ctx).  `chat` is the outcome of the
single remote `client.chat` call this invocation would issue (`.error e`
models the call raising with detail `e`); `parse` is the JSON parse of the
response content; `ctxFlag` is `bool(file_ctx)`.  Returns the
classification, the updated state, and whether a remote call was issued
(`false` on a cache hit). -/
def classify_request (chat : Except String String)
    (parse : String → Option Classification) (user_input : String) (ctxFlag : Bool)
    (st : ClassifyState) : Classification × ClassifyState × Bool :=
  match cacheLookup st.cache (user_input, ctxFlag) with
  | some r => (r, st, false)
  | none =>
    match chat with
    | .ok content =>
      let result := safe_load_json parse content (classifierFallback user_input)
      (result, { st with cache := st.cache ++ [((user_input, ctxFlag), result)] }, true)
    | .error e =>
      (classifierFallback user_input, { st with log := st.log ++ [e] }, true)

/-- The loop of `call_with_fallback`: try each model's chat call in order;
a call that returns is parsed leniently (`safe_load_json` with default
`dflt`) and that value is returned at once; a call that raises has its
detail recorded (`last = str(e)`, `log_error`) and the next model is tried;
when the list is exhausted, `RuntimeError(last)` is raised.  Returns the
outcome together with the accumulated log entries. -/
def callFallbackGo {α : Type} (chat : String → Except String String)
    (parse : String → Option α) (dflt : α) :
    List String → Option String → List String → Except (Option String) α × List String
  | [], last, log => (.error last, log)
  | m :: ms, _last, log =>
    match chat m with
    | .ok content => (.ok (safe_load_json parse content dflt), log)
    | .error e => callFallbackGo chat parse dflt ms (some e) (log ++ [e])

/-- call_with_fallback(models, system_prompt, user_prompt).  The prompts are
absorbed into the per-model `chat` oracle. -/
def call_with_fallback {α : Type} (chat : String → Except String String)
    (parse : String → Option α) (dflt : α) (models : List String) :
    Except (Option String) α × List String :=
  callFallbackGo chat parse dflt models none []

/-- build_execution_plan: `call_with_fallback` with the planner prompt and
the empty-object default. -/
def build_execution_plan (chat : String → Except String String)
    (parse : String → Option Plan) (models : List String) :
    Except (Option String) Plan × List String :=
  call_with_fallback chat parse {} models

/-- generate_report: `call_with_fallback` with the explainer prompt, the
parsed object wrapped as `{"mode": "REPORT", "report": res}`. -/
def generate_report (chat : String → Except String String)
    (parse : String → Option JsonObj) (models : List String) :
    Except (Option String) Outcome × List String :=
  match call_with_fallback chat parse {} models with
  | (.ok res, log) => (.ok (.report res), log)
  | (.error e, log) => (.error e, log)

/-- The confidence gate of `handle_input`:
`nature = cls.get("nature", "unknown")`, forced to "unknown" when
`cls.get("confidence", 0.0) < CONFIDENCE_THRESHOLD`. -/
def effective_nature (cls : Classification) : String :=
  if cls.confidence.getD 0 < CONFIDENCE_THRESHOLD then "unknown"
  else cls.nature.getD "unknown"

/-- The external collaborators of one `handle_input` dispatch: the
classifier chat call's outcome and response parse, the chain models' chat
outcomes (per model name) and the plan/report parses, the shell runner, and
whether `load_file_context()` returns a nonempty dictionary. -/
structure Env where
  classChat : Except String String
  classParse : String → Option Classification
  chainChat : String → Except String String
  planParse : String → Option Plan
  reportParse : String → Option JsonObj
  run : String → RunOutcome
  ctxNonempty : Bool

/-- The tail of `handle_input` after classification (`c` is the triple
returned by `classify_request`): gate the confidence, resolve the chain,
branch to report (explanatory nature or report-mode trigger) or to
plan-and-execute.  The rewritten request is passed only inside the chat
prompts, which the `chat` oracles absorb.  Returns the outcome (or escaping
exception), the final state (fallback-invoker log entries appended), and
the list of shell commands dispatched. -/
def dispatchAfterClassify (env : Env) (user_input : String)
    (c : Classification × ClassifyState × Bool) :
    Except Exc Outcome × ClassifyState × List String :=
  if effective_nature c.1 = "explanatory" || is_report_mode user_input then
    match generate_report env.chainChat env.reportParse (MODEL_CHAINS (effective_nature c.1)) with
    | (.ok o, log) => (.ok o, { c.2.1 with log := c.2.1.log ++ log }, [])
    | (.error e, log) => (.error (.runtimeError e), { c.2.1 with log := c.2.1.log ++ log }, [])
  else
    match build_execution_plan env.chainChat env.planParse (MODEL_CHAINS (effective_nature c.1)) with
    | (.ok plan, log) =>
      ((execute_plan env.run plan).1, { c.2.1 with log := c.2.1.log ++ log },
        (execute_plan env.run plan).2)
    | (.error e, log) => (.error (.runtimeError e), { c.2.1 with log := c.2.1.log ++ log }, [])

/-- handle_input(user_input): gather context when triggered, classify, then
dispatch.  `bool(file_ctx)` is true when a trigger phrase matched and the
loaded context was nonempty. -/
def handle_input (env : Env) (user_input : String) (st : ClassifyState) :
    Except Exc Outcome × ClassifyState × List String :=
  dispatchAfterClassify env user_input
    (classify_request env.classChat env.classParse user_input
      (should_attach_context user_input && env.ctxNonempty) st)

/-- What the `--text` branch of `main` prints: the JSON of the result on
success, or the generic payload `{"error": "AI processing failed"}` when
`handle_input` raised (the exception is logged, never shown). -/
inductive MainOut
  | result (o : Outcome)
  | errorPayload
deriving DecidableEq, Repr

/-- The `--text` branch of `main`. -/
def main_text (env : Env) (text : String) (st : ClassifyState) : MainOut :=
  match (handle_input env text st).1 with
  | .ok o => .result o
  | .error _ => .errorPayload

/-- One observation of the idle-watcher loop body (`idle_watcher.py`):
either an exception occurred during the check (caught by the bare
`except`), or the heartbeat file was read, giving
`last = data.get("last_heartbeat", 0)` (0 when missing, since `safe_read`
itself returns the default on any read error) and `now = time.time()`. -/
inductive Tick
  | exc
  | read (last : Int) (now : Int)
deriving DecidableEq, Repr

/-- Observable actions of the watcher loop: `time.sleep(60)` or
`safe_shell("systemctl stop mcp")`. -/
inductive Action
  | sleep
  | stop
deriving DecidableEq, Repr

/-- IDLE_LIMIT default (seconds) when MCP_IDLE_LIMIT is unset; the limit is
genuinely an integer in the source (`int(os.environ.get(...))`), and
timestamps are modelled at second granularity. -/
def IDLE_LIMIT_default : Int := 1800

/-- The trigger condition `last and (time.time() - last) > IDLE_LIMIT` of
one loop body (0 is the only falsy numeric heartbeat value). -/
def TickTriggers (limit : Int) : Tick → Prop
  | .exc => False
  | .read last now => last ≠ 0 ∧ limit < now - last

instance (limit : Int) : (t : Tick) → Decidable (TickTriggers limit t)
  | .exc => isFalse id
  | .read last now => inferInstanceAs (Decidable (last ≠ 0 ∧ limit < now - last))

/-- The `while True` loop of `idle_watcher.py`, run over a finite trace of
per-iteration observations: an exception sleeps and continues; a read that
satisfies the trigger issues the stop command and breaks; any other read
sleeps and continues. -/
def idle_watcher (limit : Int) : List Tick → List Action
  | [] => []
  | .exc :: ts => .sleep :: idle_watcher limit ts
  | .read last now :: ts =>
    if last ≠ 0 ∧ limit < now - last then [.stop]
    else .sleep :: idle_watcher limit ts

/-- The results `execute_plan` records when no command times out: one entry
per command, in command order, with the run's exit code and trimmed
output. -/
def expectedResults (run : String → RunOutcome) : List String → List CommandResult
  | [] => []
  | c :: cs =>
    match run c with
    | .finished rc out err =>
      { command := c, returncode := rc, stdout := pyStrip out, stderr := pyStrip err }
        :: expectedResults run cs
    | .timedOut => []

/-- Whether a dispatch result is a REPORT outcome. -/
def isReportResult : Except Exc Outcome → Bool
  | .ok (.report _) => true
  | _ => false

/-- Whether a dispatch result is an escaping `RuntimeError` from the
fallback invoker (every model of the chain failed). -/
def isChainFailure : Except Exc Outcome → Bool
  | .error (.runtimeError _) => true
  | _ => false

/-!  Theorems settling the claims. -/

theorem runCommands_no_timeout (run : String → RunOutcome) :
    ∀ (cmds : List String) (acc : List CommandResult),
      (∀ c ∈ cmds, run c ≠ .timedOut) →
      runCommands run cmds acc = (.ok (acc ++ expectedResults run cmds), cmds) := by
  intro cmds
  induction cmds with
  | nil => intro acc _; simp [runCommands, expectedResults]
  | cons c cs ih =>
    intro acc h
    have hc : run c ≠ .timedOut := h c (by simp)
    cases hrun : run c with
    | timedOut => exact absurd hrun hc
    | finished rc out err =>
      have hcs : ∀ x ∈ cs, run x ≠ .timedOut := fun x hx => h x (by simp [hx])
      simp only [runCommands, hrun, ih _ hcs, expectedResults]
      simp

theorem expectedResults_commands (run : String → RunOutcome) :
    ∀ (cmds : List String), (∀ c ∈ cmds, run c ≠ .timedOut) →
      (expectedResults run cmds).map CommandResult.command = cmds := by
  intro cmds
  induction cmds with
  | nil => intro _; simp [expectedResults]
  | cons c cs ih =>
    intro h
    cases hrun : run c with
    | timedOut => exact absurd hrun (h c (by simp))
    | finished rc out err =>
      simp only [expectedResults, hrun, List.map_cons]
      exact congrArg (c :: ·) (ih fun x hx => h x (by simp [hx]))

/-- C1: for every plan whose `commands` list is empty or missing,
`execute_plan` returns the NO_EXEC outcome (never EXECUTE) and dispatches
no command to the shell. -/
theorem C1_empty_plan_no_exec (run : String → RunOutcome) (plan : Plan)
    (h : plan.commands = none ∨ plan.commands = some (.strList [])) :
    execute_plan run plan =
      (.ok (.noExec (plan.description.getD "No commands to execute")), []) := by
  rcases h with h | h <;> simp [execute_plan, planCommands, h]

/-- Witness for C1 at a concrete plan with a present-but-empty command
list. -/
theorem C1_empty_plan_no_exec_witness :
    execute_plan (fun _ => RunOutcome.timedOut) { commands := some (.strList []) } =
      (.ok (.noExec "No commands to execute"), []) :=
  C1_empty_plan_no_exec _ _ (Or.inr rfl)

/-- C2 as stated is false: `execute_plan` does not catch
`subprocess.TimeoutExpired`, so with two commands where the first times
out, no EXECUTE outcome with two results is produced — the exception
escapes and the second command is never dispatched. -/
theorem C2_counterexample :
    (execute_plan (fun c => if c = "sleep 999" then .timedOut else .finished 0 "" "")
        { commands := some (.strList ["sleep 999", "echo hi"]) }).1 =
      .error (.timeoutExpired "sleep 999") ∧
    (execute_plan (fun c => if c = "sleep 999" then .timedOut else .finished 0 "" "")
        { commands := some (.strList ["sleep 999", "echo hi"]) }).2 =
      ["sleep 999"] := by
  exact ⟨rfl, rfl⟩

/-- C2 amended: for every plan with N ≥ 1 commands none of which times
out, `execute_plan` returns an EXECUTE outcome whose results list has
exactly one entry per command, in plan order, every command being
dispatched — a non-zero exit code does not abort the remaining commands;
but a command that reaches the 90-second timeout raises `TimeoutExpired`,
aborting the remaining commands (see the counterexample). -/
theorem C2_execute_all_commands (run : String → RunOutcome) (plan : Plan)
    (hne : planCommands plan ≠ [])
    (hnt : ∀ c ∈ planCommands plan, run c ≠ .timedOut) :
    execute_plan run plan =
      (.ok (.execute plan.description (expectedResults run (planCommands plan))
        plan.output_file), planCommands plan) ∧
    (expectedResults run (planCommands plan)).map CommandResult.command =
      planCommands plan := by
  constructor
  · have h1 := runCommands_no_timeout run (planCommands plan) [] hnt
    simp only [execute_plan, List.isEmpty_iff, hne, if_neg, h1]
    simp [hne]
  · exact expectedResults_commands run (planCommands plan) hnt

/-- Witness for C2 amended: a two-command plan whose first command exits
non-zero still yields both results, in order. -/
theorem C2_execute_all_commands_witness :
    execute_plan (fun c => if c = "false" then .finished 1 "" " boom " else .finished 0 " ok " "")
        { description := some "d", commands := some (.strList ["false", "echo ok"]),
          output_file := some "out.txt" } =
      (.ok (.execute (some "d")
        [{ command := "false", returncode := 1, stdout := "", stderr := "boom" },
         { command := "echo ok", returncode := 0, stdout := "ok", stderr := "" }]
        (some "out.txt")), ["false", "echo ok"]) ∧
    ([{ command := "false", returncode := 1, stdout := "", stderr := "boom" },
      { command := "echo ok", returncode := 0, stdout := "ok", stderr := "" }] :
        List CommandResult).map CommandResult.command = ["false", "echo ok"] := by
  have h := C2_execute_all_commands
    (fun c => if c = "false" then .finished 1 "" " boom " else .finished 0 " ok " "")
    { description := some "d", commands := some (.strList ["false", "echo ok"]),
      output_file := some "out.txt" }
    (by decide) (by decide)
  revert h
  decide

/-- C3: for every request whose text contains a report-mode trigger phrase,
`handle_input` takes the report branch — whatever the classifier returned
(any category, any confidence), no shell command is dispatched, the
plan-and-execute branch is never reached, and the result is a REPORT
outcome (or, when every model of the chain fails, the escaping
`RuntimeError` of the fallback invoker — never an EXECUTE or NO_EXEC
outcome). -/
theorem C3_report_trigger_precedence (env : Env) (user_input : String) (st : ClassifyState)
    (h : is_report_mode user_input = true) :
    (handle_input env user_input st).2.2 = [] ∧
    (isReportResult (handle_input env user_input st).1 ||
      isChainFailure (handle_input env user_input st).1) = true := by
  unfold handle_input dispatchAfterClassify
  rcases hc : call_with_fallback env.chainChat env.reportParse {}
      (MODEL_CHAINS (effective_nature (classify_request env.classChat env.classParse user_input
        (should_attach_context user_input && env.ctxNonempty) st).1)) with ⟨r, log⟩
  simp only [h, Bool.or_true, if_true, generate_report, hc]
  cases r <;> simp [isReportResult, isChainFailure]

/-- Witness for C3 at the input "--report", with a classifier that labels
it server_operation at confidence 0.9 and a chain that succeeds. -/
theorem C3_report_trigger_precedence_witness :
    (handle_input
      { classChat := .ok "resp",
        classParse := (fun _ => some
          { nature := some "server_operation", rewritten_request := some "x",
            confidence := some (mkRat 9 10) }),
        chainChat := (fun _ => .ok "resp"),
        planParse := (fun _ => none),
        reportParse := (fun _ => some {}),
        run := (fun _ => .finished 0 "" ""),
        ctxNonempty := false } "--report" {}).2.2 = [] ∧
    (isReportResult (handle_input
      { classChat := .ok "resp",
        classParse := (fun _ => some
          { nature := some "server_operation", rewritten_request := some "x",
            confidence := some (mkRat 9 10) }),
        chainChat := (fun _ => .ok "resp"),
        planParse := (fun _ => none),
        reportParse := (fun _ => some {}),
        run := (fun _ => .finished 0 "" ""),
        ctxNonempty := false } "--report" {}).1 ||
      isChainFailure (handle_input
      { classChat := .ok "resp",
        classParse := (fun _ => some
          { nature := some "server_operation", rewritten_request := some "x",
            confidence := some (mkRat 9 10) }),
        chainChat := (fun _ => .ok "resp"),
        planParse := (fun _ => none),
        reportParse := (fun _ => some {}),
        run := (fun _ => .finished 0 "" ""),
        ctxNonempty := false } "--report" {}).1) = true :=
  C3_report_trigger_precedence _ _ _ (by decide)

/-- C4: whenever the classification's confidence (0.0 when absent) is below
the 0.6 threshold, the effective category `handle_input` computes — the one
used both for model-chain resolution and for the explanatory/report branch
test — is "unknown", and the resolved chain is the unknown chain, whatever
category the classifier reported. -/
theorem C4_low_confidence_forces_unknown (cls : Classification)
    (h : cls.confidence.getD 0 < CONFIDENCE_THRESHOLD) :
    effective_nature cls = "unknown" ∧
    MODEL_CHAINS (effective_nature cls) = unknownChain := by
  have h1 : effective_nature cls = "unknown" := by simp [effective_nature, h]
  refine ⟨h1, ?_⟩
  rw [h1]
  rfl

/-- C5 as stated is false: with a chain [A, B] where A's chat call succeeds
but returns unparsable content and B would return a parsable result, the
invoker returns A's lenient-parse default (the empty object), not the first
successfully parsed result — B is never consulted and nothing is logged. -/
theorem C5_counterexample :
    call_with_fallback
        (fun m => if m = "A" then .ok "garbage" else .ok "good")
        (fun s => if s = "good" then some { description := some "from B" } else none)
        ({} : Plan) ["A", "B"] =
      (.ok ({} : Plan), []) ∧
    (fun s => if s = "good" then some { description := some "from B" } else none) "garbage" =
      (none : Option Plan) ∧
    ({} : Plan) ≠ { description := some "from B" } := by
  exact ⟨rfl, rfl, by decide⟩

theorem callFallbackGo_failing_front {α : Type} (chat : String → Except String String)
    (parse : String → Option α) (dflt : α) (errf : String → String)
    (B cB : String) (vB : α) (rest : List String)
    (hB : chat B = .ok cB) (hvB : parse cB = some vB) :
    ∀ (ms : List String), (∀ m ∈ ms, chat m = .error (errf m)) →
      ∀ (last : Option String) (log : List String),
        callFallbackGo chat parse dflt (ms ++ B :: rest) last log =
          (.ok vB, log ++ ms.map errf) := by
  intro ms
  induction ms with
  | nil =>
    intro _ last log
    simp [callFallbackGo, hB, safe_load_json, hvB]
  | cons m ms ih =>
    intro h last log
    have hm : chat m = .error (errf m) := h m (by simp)
    have hms : ∀ x ∈ ms, chat x = .error (errf x) := fun x hx => h x (by simp [hx])
    have step : callFallbackGo chat parse dflt ((m :: ms) ++ B :: rest) last log =
        callFallbackGo chat parse dflt (ms ++ B :: rest) (some (errf m)) (log ++ [errf m]) := by
      simp [callFallbackGo, hm]
    rw [step, ih hms (some (errf m)) (log ++ [errf m])]
    simp

/-- C5 amended: the fallback invoker tries models strictly in chain order
until one chat call returns without raising, and returns the lenient parse
of that first successful response (the parsed object when it parses, the
empty-object default otherwise — it does not move on to the next model on a
parse failure, see the counterexample).  In particular, for a chain
beginning with raising models followed by a model B whose call succeeds
with parsable content, the result is exactly B's parsed result, models
after B are never consulted, and each earlier failure is logged, in order,
never returned as the primary result. -/
theorem C5_fallback_order (chat : String → Except String String)
    (parse : String → Option Plan) (dflt : Plan) (errf : String → String)
    (B cB : String) (vB : Plan) (ms rest : List String)
    (hms : ∀ m ∈ ms, chat m = .error (errf m))
    (hB : chat B = .ok cB) (hvB : parse cB = some vB) :
    call_with_fallback chat parse dflt (ms ++ B :: rest) = (.ok vB, ms.map errf) := by
  simpa [call_with_fallback] using
    callFallbackGo_failing_front chat parse dflt errf B cB vB rest hB hvB ms hms none []

/-- Witness for C5 amended: chain [A, B], A raises, B succeeds; the result
is B's parsed plan and A's failure is the only log entry. -/
theorem C5_fallback_order_witness :
    call_with_fallback
        (fun m => if m = "A" then .error "A down" else .ok "planjson")
        (fun s => if s = "planjson" then some { description := some "B plan" } else none)
        ({} : Plan) (["A"] ++ "B" :: []) =
      (.ok { description := some "B plan" }, ["A down"]) := by
  have h := C5_fallback_order
    (fun m => if m = "A" then .error "A down" else .ok "planjson")
    (fun s => if s = "planjson" then some { description := some "B plan" } else none)
    {} (fun _ => "A down") "B" "planjson" { description := some "B plan" }
    ["A"] [] (by decide) (by decide) (by decide)
  simpa using h

theorem callFallbackGo_all_fail {α : Type} (chat : String → Except String String)
    (parse : String → Option α) (dflt : α) (errf : String → String)
    (hfail : ∀ m, chat m = .error (errf m)) :
    ∀ (models : List String) (hne : models ≠ []) (last : Option String) (log : List String),
      (callFallbackGo chat parse dflt models last log).1 =
        .error (some (errf (models.getLast hne))) := by
  intro models
  induction models with
  | nil => intro hne; exact absurd rfl hne
  | cons m ms ih =>
    intro hne last log
    cases ms with
    | nil => simp [callFallbackGo, hfail m]
    | cons m2 ms2 =>
      have step : callFallbackGo chat parse dflt (m :: m2 :: ms2) last log =
          callFallbackGo chat parse dflt (m2 :: ms2) (some (errf m)) (log ++ [errf m]) := by
        simp [callFallbackGo, hfail m]
      rw [step, ih (by simp) (some (errf m)) (log ++ [errf m])]
      simp [List.getLast]

theorem MODEL_CHAINS_ne_nil (nature : String) : MODEL_CHAINS nature ≠ [] := by
  unfold MODEL_CHAINS unknownChain
  split
  · simp
  · split
    · simp
    · split <;> simp

theorem dispatch_fails_when_chain_fails (env : Env) (text : String)
    (c : Classification × ClassifyState × Bool) (errf : String → String)
    (hfail : ∀ m, env.chainChat m = .error (errf m)) :
    ∃ e, (dispatchAfterClassify env text c).1 = .error (.runtimeError e) := by
  unfold dispatchAfterClassify
  split
  · rcases h1 : call_with_fallback env.chainChat env.reportParse {}
        (MODEL_CHAINS (effective_nature c.1)) with ⟨r, log⟩
    have h2 := callFallbackGo_all_fail env.chainChat env.reportParse {} errf hfail
      (MODEL_CHAINS (effective_nature c.1)) (MODEL_CHAINS_ne_nil _) none []
    rw [show callFallbackGo env.chainChat env.reportParse {}
        (MODEL_CHAINS (effective_nature c.1)) none [] =
      call_with_fallback env.chainChat env.reportParse {}
        (MODEL_CHAINS (effective_nature c.1)) from rfl, h1] at h2
    simp at h2
    subst h2
    simp [generate_report, h1]
  · rcases h1 : call_with_fallback env.chainChat env.planParse {}
        (MODEL_CHAINS (effective_nature c.1)) with ⟨r, log⟩
    have h2 := callFallbackGo_all_fail env.chainChat env.planParse {} errf hfail
      (MODEL_CHAINS (effective_nature c.1)) (MODEL_CHAINS_ne_nil _) none []
    rw [show callFallbackGo env.chainChat env.planParse {}
        (MODEL_CHAINS (effective_nature c.1)) none [] =
      call_with_fallback env.chainChat env.planParse {}
        (MODEL_CHAINS (effective_nature c.1)) from rfl, h1] at h2
    simp at h2
    subst h2
    simp [build_execution_plan, h1]

/-- C6: when every model of the chain fails, the fallback invoker produces
the hard `RuntimeError` carrying the last failure's detail (it never
returns a value), and the top-level `--text` entry point converts the
escaping exception into the generic user-visible error payload instead of
crashing. -/
theorem C6_exhausted_chain_error (env : Env) (text : String) (st : ClassifyState)
    (parse : String → Option Plan) (dflt : Plan)
    (models : List String) (errf : String → String) (hne : models ≠ [])
    (hfail : ∀ m, env.chainChat m = .error (errf m)) :
    (call_with_fallback env.chainChat parse dflt models).1 =
      .error (some (errf (models.getLast hne))) ∧
    main_text env text st = .errorPayload := by
  refine ⟨callFallbackGo_all_fail env.chainChat parse dflt errf hfail models hne none [], ?_⟩
  obtain ⟨e, he⟩ := dispatch_fails_when_chain_fails env text
    (classify_request env.classChat env.classParse text
      (should_attach_context text && env.ctxNonempty) st) errf hfail
  simp only [main_text, handle_input, he]

/-- Witness for C6: a two-model chain where both calls raise; the invoker
errors with the second model's detail and the `--text` entry point prints
the generic error payload. -/
theorem C6_exhausted_chain_error_witness :
    (call_with_fallback
        (fun m => Except.error m) (fun _ => (none : Option Plan)) ({} : Plan) ["A", "B"]).1 =
      .error (some "B") ∧
    main_text
      { classChat := .error "down", classParse := (fun _ => none),
        chainChat := (fun m => .error m), planParse := (fun _ => none),
        reportParse := (fun _ => none), run := (fun _ => .finished 0 "" ""),
        ctxNonempty := false } "hi" {} = .errorPayload :=
  C6_exhausted_chain_error
    { classChat := .error "down", classParse := (fun _ => none),
      chainChat := (fun m => .error m), planParse := (fun _ => none),
      reportParse := (fun _ => none), run := (fun _ => .finished 0 "" ""),
      ctxNonempty := false } "hi" {} (fun _ => none) {} ["A", "B"] id
    (by decide) (fun _ => rfl)

/-- Witness for C4: a server_operation classification at confidence 0.5 is
routed as unknown. -/
theorem C4_low_confidence_forces_unknown_witness :
    effective_nature
      { nature := some "server_operation", rewritten_request := some "x",
        confidence := some (mkRat 5 10) } = "unknown" ∧
    MODEL_CHAINS (effective_nature
      { nature := some "server_operation", rewritten_request := some "x",
        confidence := some (mkRat 5 10) }) = unknownChain :=
  C4_low_confidence_forces_unknown _ (by decide)

theorem cacheLookup_append (c : List ((String × Bool) × Classification))
    (k : String × Bool) (v : Classification) (h : cacheLookup c k = none) :
    cacheLookup (c ++ [(k, v)]) k = some v := by
  induction c with
  | nil => simp [cacheLookup]
  | cons p rest ih =>
    rcases p with ⟨k1, v1⟩
    by_cases hk : k1 = k
    · simp [cacheLookup, hk] at h
    · simp only [cacheLookup, List.cons_append, if_neg hk] at h ⊢
      exact ih h

/-- C7 as stated is false on the logging part: a remote response that is
received but unparsable yields the identity fallback, yet nothing at all is
written to the side-channel log (`safe_load_json` silently returns its
default; `log_error` runs only in the `except` branch). -/
theorem C7_counterexample :
    (classify_request (.ok "garbage") (fun _ => none) "hi" false {}).1 =
      classifierFallback "hi" ∧
    ((classify_request (.ok "garbage") (fun _ => none) "hi" false {}).2.1).log = [] :=
  ⟨rfl, rfl⟩

/-- C7 amended: on a cache miss, a raising remote call yields the identity
fallback (unknown / 0.0 / original input) with the error detail appended to
the side-channel log and nothing cached, and a received-but-unparsable
response yields the same fallback, cached, with nothing logged; in both
cases `classify_request` returns normally (being a total function, it never
raises to its caller). -/
theorem C7_classifier_fallback (parse : String → Option Classification) (input : String)
    (flag : Bool) (st : ClassifyState) (e content : String)
    (hmiss : cacheLookup st.cache (input, flag) = none) (hparse : parse content = none) :
    classify_request (.error e) parse input flag st =
      (classifierFallback input, { st with log := st.log ++ [e] }, true) ∧
    classify_request (.ok content) parse input flag st =
      (classifierFallback input,
        { st with cache := st.cache ++ [((input, flag), classifierFallback input)] }, true) := by
  constructor
  · simp [classify_request, hmiss]
  · simp [classify_request, hmiss, safe_load_json, hparse]

/-- Witness for C7 amended, on an empty cache with an unparsable response
and with a raising call. -/
theorem C7_classifier_fallback_witness :
    classify_request (.error "neterr") (fun _ => none) "hi" false {} =
      (classifierFallback "hi", { cache := [], log := ["neterr"] }, true) ∧
    classify_request (.ok "garbage") (fun _ => none) "hi" false {} =
      (classifierFallback "hi",
        { cache := [(("hi", false), classifierFallback "hi")], log := [] }, true) :=
  C7_classifier_fallback (fun _ => none) "hi" false {} "neterr" "garbage" rfl rfl

/-- C8 as stated is false: when the first classification's remote call
raises, nothing is cached, so classifying the identical (text, flag) pair a
second time does issue a second remote call (third component `true` means a
remote call was made). -/
theorem C8_counterexample :
    (classify_request (.error "e1") (fun _ => none) "hi" false {}).2.2 = true ∧
    (classify_request (.error "e2") (fun _ => none) "hi" false
      (classify_request (.error "e1") (fun _ => none) "hi" false {}).2.1).2.2 = true :=
  ⟨rfl, rfl⟩

/-- C8 amended: provided the first classification's remote call returned
(so its — possibly defaulted — result was cached), a second classification
of the identical (text, flag) pair returns the identical cached result,
leaves the state unchanged, and issues no second remote call; after a
raising first call nothing is cached and the second classification issues a
new remote call (see the counterexample). -/
theorem C8_cached_idempotent (parse : String → Option Classification) (input : String)
    (flag : Bool) (st : ClassifyState) (content : String) (chat2 : Except String String)
    (hmiss : cacheLookup st.cache (input, flag) = none) :
    classify_request chat2 parse input flag
        (classify_request (.ok content) parse input flag st).2.1 =
      ((classify_request (.ok content) parse input flag st).1,
        (classify_request (.ok content) parse input flag st).2.1, false) := by
  have h1 : classify_request (.ok content) parse input flag st =
      (safe_load_json parse content (classifierFallback input),
        { st with cache := st.cache ++ [((input, flag),
            safe_load_json parse content (classifierFallback input))] }, true) := by
    simp [classify_request, hmiss]
  rw [h1]
  simp [classify_request, cacheLookup_append _ _ _ hmiss]

/-- Witness for C8 amended: after a successful first classification, the
repeat lookup is served from the cache with no remote call, even though the
remote service would now fail. -/
theorem C8_cached_idempotent_witness :
    classify_request (.error "down later")
        (fun _ => some { nature := some "code_generation" }) "hi" false
        (classify_request (.ok "resp")
          (fun _ => some { nature := some "code_generation" }) "hi" false {}).2.1 =
      ((classify_request (.ok "resp")
          (fun _ => some { nature := some "code_generation" }) "hi" false {}).1,
        (classify_request (.ok "resp")
          (fun _ => some { nature := some "code_generation" }) "hi" false {}).2.1,
        false) :=
  C8_cached_idempotent (fun _ => some { nature := some "code_generation" }) "hi" false {}
    "resp" (.error "down later") rfl

/-- C10: the classification cache is written only when the remote chat call
returns without raising.  On a cache miss: a raising call returns the
fallback with the cache left unchanged, and a later identical request
issues a new remote call (whatever its own call does); a received-but-
unparsable response stores the fallback default itself in the cache, and a
later identical request is served that cached default with no state change
and no remote call (nothing ever evicts it). -/
theorem C10_cache_only_on_returned_call (parse : String → Option Classification)
    (input : String) (flag : Bool) (st : ClassifyState) (e content : String)
    (chat2 chat3 : Except String String)
    (hmiss : cacheLookup st.cache (input, flag) = none) (hparse : parse content = none) :
    (classify_request (.error e) parse input flag st).1 = classifierFallback input ∧
    ((classify_request (.error e) parse input flag st).2.1).cache = st.cache ∧
    (classify_request chat2 parse input flag
        (classify_request (.error e) parse input flag st).2.1).2.2 = true ∧
    ((classify_request (.ok content) parse input flag st).2.1).cache =
      st.cache ++ [((input, flag), classifierFallback input)] ∧
    classify_request chat3 parse input flag
        (classify_request (.ok content) parse input flag st).2.1 =
      (classifierFallback input,
        (classify_request (.ok content) parse input flag st).2.1, false) := by
  have herr : classify_request (.error e) parse input flag st =
      (classifierFallback input, { st with log := st.log ++ [e] }, true) := by
    simp [classify_request, hmiss]
  have hok : classify_request (.ok content) parse input flag st =
      (classifierFallback input,
        { st with cache := st.cache ++ [((input, flag), classifierFallback input)] },
        true) := by
    simp [classify_request, hmiss, safe_load_json, hparse]
  refine ⟨by rw [herr], by rw [herr], ?_, by rw [hok], ?_⟩
  · rw [herr]
    cases chat2 <;> simp [classify_request, hmiss]
  · rw [hok]
    simp [classify_request, cacheLookup_append _ _ _ hmiss]

/-- Witness for C10 on an empty cache with concrete failing and unparsable
calls. -/
theorem C10_cache_only_on_returned_call_witness :
    (classify_request (.error "down") (fun _ => none) "hi" false {}).1 =
      classifierFallback "hi" ∧
    ((classify_request (.error "down") (fun _ => none) "hi" false {}).2.1).cache =
      ([] : List ((String × Bool) × Classification)) ∧
    (classify_request (.error "down2") (fun _ => none) "hi" false
        (classify_request (.error "down") (fun _ => none) "hi" false {}).2.1).2.2 = true ∧
    ((classify_request (.ok "garbage") (fun _ => none) "hi" false {}).2.1).cache =
      ([] : List ((String × Bool) × Classification)) ++
        [(("hi", false), classifierFallback "hi")] ∧
    classify_request (.ok "later") (fun _ => none) "hi" false
        (classify_request (.ok "garbage") (fun _ => none) "hi" false {}).2.1 =
      (classifierFallback "hi",
        (classify_request (.ok "garbage") (fun _ => none) "hi" false {}).2.1, false) :=
  C10_cache_only_on_returned_call (fun _ => none) "hi" false {} "down" "garbage"
    (.error "down2") (.ok "later") rfl rfl

theorem idle_watcher_sleeps_until_trigger (limit : Int) :
    ∀ (ts1 : List Tick), (∀ t ∈ ts1, ¬ TickTriggers limit t) →
      ∀ (last now : Int) (ts2 : List Tick), last ≠ 0 → limit < now - last →
        idle_watcher limit (ts1 ++ Tick.read last now :: ts2) =
          List.replicate ts1.length Action.sleep ++ [Action.stop] := by
  intro ts1
  induction ts1 with
  | nil =>
    intro _ last now ts2 h2 h3
    simp [idle_watcher, h2, h3]
  | cons t ts ih =>
    intro h last now ts2 h2 h3
    have hnt : ¬ TickTriggers limit t := h t (by simp)
    have hrest : ∀ x ∈ ts, ¬ TickTriggers limit x := fun x hx => h x (by simp [hx])
    cases t with
    | exc =>
      simp only [List.cons_append, idle_watcher]
      rw [List.length_cons, List.replicate_succ, List.cons_append]
      exact congrArg (Action.sleep :: ·) (ih hrest last now ts2 h2 h3)
    | read l n =>
      have hcond : ¬ (l ≠ 0 ∧ limit < n - l) := hnt
      simp only [List.cons_append, idle_watcher, if_neg hcond]
      rw [List.length_cons, List.replicate_succ, List.cons_append]
      exact congrArg (Action.sleep :: ·) (ih hrest last now ts2 h2 h3)

/-- C9: in the idle-watcher loop, as soon as a check observes a present
heartbeat (`last` truthy) whose age strictly exceeds the idle limit, the
watcher issues exactly one stop command and the loop terminates — earlier
non-triggering checks, including ones that raised an exception, each just
sleep and continue, and whatever would follow the trigger is never
examined; moreover an exception tick never stops the watcher: it sleeps
and the loop goes on. -/
theorem C9_idle_stop_once (limit : Int) (ts1 ts2 ts : List Tick) (last now : Int)
    (h1 : ∀ t ∈ ts1, ¬ TickTriggers limit t) (h2 : last ≠ 0) (h3 : limit < now - last) :
    idle_watcher limit (ts1 ++ Tick.read last now :: ts2) =
      List.replicate ts1.length Action.sleep ++ [Action.stop] ∧
    idle_watcher limit (Tick.exc :: ts) = Action.sleep :: idle_watcher limit ts :=
  ⟨idle_watcher_sleeps_until_trigger limit ts1 h1 last now ts2 h2 h3, rfl⟩

/-- Witness for C9 at the spec's example numbers: limit 1800, a heartbeat
1801 seconds old; after one exception tick and one missing-heartbeat tick,
the watcher stops exactly once and ignores the rest of the trace. -/
theorem C9_idle_stop_once_witness :
    idle_watcher 1800
        ([Tick.exc, Tick.read 0 100] ++ Tick.read 1 1802 :: [Tick.read 1 999999]) =
      List.replicate 2 Action.sleep ++ [Action.stop] ∧
    idle_watcher 1800 (Tick.exc :: [Tick.exc]) =
      Action.sleep :: idle_watcher 1800 [Tick.exc] :=
  C9_idle_stop_once 1800 [Tick.exc, Tick.read 0 100] [Tick.read 1 999999] [Tick.exc] 1 1802
    (by decide) (by decide) (by decide)

end MCP
